import Mathlib

/-!
Verification of the treadmill-to-Fitbit sync integration.

Shallow embedding of the two core modules:

* `api.py` (`FitbitAPI`): OAuth token refresh, sliding-window rate limiter,
  distance-to-steps conversion, activity-log creation, profile fetch.
* `coordinator.py` (`FitbitTreadmillCoordinator`): the session state machine,
  the completion pipeline, manual sync, sync history and notifications.

Machine floats are modelled by `ℚ`; Python `int(x)` (truncation toward zero)
is `ratTrunc`.  Remote calls are modelled by oracle parameters (the outcome of
the network operation is an input); raising an exception is modelled by
`Except` or by a `Bool` success flag, following the `try`/`except` structure
of the source.
-/

/-! ### Constants (`const.py`) -/

def FEET_PER_MILE : ℚ := 5280

def MIN_DISTANCE : ℚ := 1/100

def MAX_DISTANCE : ℚ := 100

def MAX_HISTORY_SIZE : ℕ := 50

def FITBIT_RATE_LIMIT : ℕ := 150

def TOKEN_REFRESH_BUFFER : ℚ := 300

def STATE_WORKING : String := "Working"

def STATE_POST_WORKOUT : String := "Post-Workout"

def STATE_STANDBY : String := "Standby"

/-- Python `int(x)` on a float: truncation toward zero. -/
def ratTrunc (q : ℚ) : ℤ := if 0 ≤ q then ⌊q⌋ else ⌈q⌉

/-! ### Rate limiter (`FitbitAPI._check_rate_limit`, api.py lines 109-123)

The window of request timestamps is a list of clock readings; each call first
purges entries older than one hour, then rejects if the quota is reached,
otherwise records the current time. -/

/-- `self._request_times = [t for t in self._request_times if current_time - t < 3600]` -/
def purgeWindow (now : ℚ) (w : List ℚ) : List ℚ :=
  w.filter (fun t => decide (now - t < 3600))

/-- One call of `_check_rate_limit` at clock reading `now`: returns
`(accepted, new window)`; on rejection (`RateLimitError`) the timestamp is not
recorded. -/
def checkRateLimit (now : ℚ) (w : List ℚ) : Bool × List ℚ :=
  let p := purgeWindow now w
  if 150 ≤ p.length then (false, p) else (true, p ++ [now])

/-- Run the limiter over a sequence of clock readings, starting from window
`w`; returns the final window and the list of accepted timestamps. -/
def runRateLimiter : List ℚ → List ℚ → List ℚ × List ℚ
  | [], w => (w, [])
  | t :: ts, w =>
    let r := checkRateLimit t w
    let rest := runRateLimiter ts r.2
    (rest.1, if r.1 then t :: rest.2 else rest.2)

/-- Membership of a timestamp in the trailing 3600-second window ending at
`endT`. -/
def inWindow (endT u : ℚ) : Bool := decide (endT - 3600 < u ∧ u ≤ endT)

/-! ### Token store (`FitbitAPI._refresh_token` / `_ensure_token_valid`,
api.py lines 68-107) -/

/-- The mutable fields of `FitbitAPI` relevant to token and quota state. -/
structure ApiState where
  accessToken : String
  refreshToken : String
  expiresAt : ℚ
  requestTimes : List ℚ
deriving DecidableEq

/-- The dictionary returned by the remote token-refresh endpoint; each field
may be absent (`None` models a missing dictionary key, raising `KeyError` on
lookup). -/
structure TokenResp where
  accessToken : Option String
  refreshTokenField : Option String
  expiresIn : Option ℚ

/-- `FitbitAPI._refresh_token`.  `resp = none` models the remote call itself
raising.  The three assignments run in order, so a `KeyError` on a later key
leaves the earlier assignments in place; any exception is converted to
`ConfigEntryAuthFailed` (`.error`, carrying the state at the raise point). -/
def refreshTokenStep (now : ℚ) (resp : Option TokenResp) (st : ApiState) :
    Except ApiState ApiState :=
  match resp with
  | none => .error st
  | some r =>
    match r.accessToken with
    | none => .error st
    | some a =>
      let st1 := { st with accessToken := a }
      match r.refreshTokenField with
      | none => .error st1
      | some rt =>
        let st2 := { st1 with refreshToken := rt }
        match r.expiresIn with
        | none => .error st2
        | some e => .ok { st2 with expiresAt := now + e }

/-- `FitbitAPI._ensure_token_valid`: refresh when
`current_time >= expires_at - TOKEN_REFRESH_BUFFER`. -/
def ensureTokenValid (now : ℚ) (resp : Option TokenResp) (st : ApiState) :
    Except ApiState ApiState :=
  if st.expiresAt - TOKEN_REFRESH_BUFFER ≤ now then refreshTokenStep now resp st
  else .ok st

/-- `_check_rate_limit` acting on the full API state. -/
def checkRateLimitApi (now : ℚ) (st : ApiState) : Except ApiState ApiState :=
  let r := checkRateLimit now st.requestTimes
  if r.1 then .ok { st with requestTimes := r.2 }
  else .error { st with requestTimes := r.2 }

/-- Failure kinds raised before the HTTP request is issued. -/
inductive ApiFailure
  | authFailed
  | rateLimited
deriving DecidableEq

/-- `FitbitAPI.create_activity_log` up to the point the HTTP request is
issued: token check, then rate-limit check, then the request (the `Bool`
records that the outbound request was issued). -/
def createActivityLog (now : ℚ) (resp : Option TokenResp) (st : ApiState) :
    Except (ApiFailure × ApiState) (ApiState × Bool) :=
  match ensureTokenValid now resp st with
  | .error st1 => .error (.authFailed, st1)
  | .ok st1 =>
    match checkRateLimitApi now st1 with
    | .error st2 => .error (.rateLimited, st2)
    | .ok st2 => .ok (st2, true)

/-- `FitbitAPI.get_user_profile`: token check, then the request — there is no
rate-limit check in this method. -/
def getUserProfile (now : ℚ) (resp : Option TokenResp) (st : ApiState) :
    Except (ApiFailure × ApiState) (ApiState × Bool) :=
  match ensureTokenValid now resp st with
  | .error st1 => .error (.authFailed, st1)
  | .ok st1 => .ok (st1, true)

/-- `FitbitAPI.convert_distance_to_steps`:
`steps = int(distance_miles * FEET_PER_MILE / stride_feet)`, method tag
`"manual_calculation"`. -/
def convertDistanceToSteps (distanceMiles strideFeet : ℚ) : ℤ × String :=
  (ratTrunc (distanceMiles * FEET_PER_MILE / strideFeet), "manual_calculation")

/-! ### Coordinator (`coordinator.py`) -/

/-- `self._current_session = {"start_time": ..., "start_distance": ...}` -/
structure Session where
  startTime : ℚ
  startDistance : ℚ
deriving DecidableEq

/-- One entry of `self._sync_history` (the wall-clock `timestamp` and the
remote `fitbit_log_id` are not modelled). -/
structure SyncRecord where
  distance : ℚ
  steps : ℤ
  durationMinutes : ℤ
  conversionMethod : String
  activityType : String
  success : Bool
deriving DecidableEq

/-- Outcome of the remote `create_activity_log` call, as seen by
`_async_sync_workout`'s `try`/`except` arms. -/
inductive RemoteOutcome
  | success
  | authFailed
  | rateLimited
  | apiError
  | unexpected
deriving DecidableEq

/-- Configuration drawn from `entry.data` (with the source's defaults). -/
structure CoordConfig where
  activityType : String := "Walking"
  strideLength : ℚ := 5/2
  autoSync : Bool := true
  notificationEnabled : Bool := true

/-- Coordinator state: the open session, the sync history, the stream of
notifications sent (success flags), plus instrumentation counters for the
number of `create_activity_log` invocations and `_async_complete_session`
runs. -/
structure CoordState where
  currentSession : Option Session
  syncHistory : List SyncRecord
  notifications : List Bool
  createActivityCalls : ℕ
  completionAttempts : ℕ
deriving DecidableEq

/-- `_notify_sync_result`: sends a persistent notification unless disabled. -/
def notify (cfg : CoordConfig) (st : CoordState) (success : Bool) : CoordState :=
  if cfg.notificationEnabled then
    { st with notifications := st.notifications ++ [success] }
  else st

/-- Append a record to the history, then
`if len > MAX_HISTORY_SIZE: pop(0)`. -/
def pushHistory (h : List SyncRecord) (r : SyncRecord) : List SyncRecord :=
  let h2 := h ++ [r]
  if MAX_HISTORY_SIZE < h2.length then h2.drop 1 else h2

/-- `duration_minutes = max(1, int(duration.total_seconds() / 60))`
(coordinator.py lines 171-172). -/
def durationMinutes (startTime endTime : ℚ) : ℤ :=
  max 1 (ratTrunc ((endTime - startTime) / 60))

/-- `_async_sync_workout`: convert distance to steps, call
`create_activity_log` (outcome given by the oracle), and on success append
the history record, trim the history, and notify; on any failure notify and
re-raise (`Bool` result is `false`). -/
def syncWorkout (cfg : CoordConfig) (distance _startTime : ℚ) (durMinutes : ℤ)
    (outcome : RemoteOutcome) (st : CoordState) : CoordState × Bool :=
  let conv := convertDistanceToSteps distance cfg.strideLength
  let st1 := { st with createActivityCalls := st.createActivityCalls + 1 }
  match outcome with
  | .success =>
    let record : SyncRecord :=
      { distance := distance, steps := conv.1, durationMinutes := durMinutes,
        conversionMethod := conv.2, activityType := cfg.activityType,
        success := true }
    let st2 := { st1 with syncHistory := pushHistory st1.syncHistory record }
    (notify cfg st2 true, true)
  | _ => (notify cfg st1 false, false)

/-- `_async_complete_session`: read the open session (or fall back to
`start_time = end_time`, `start_distance = 0`), read the end distance
(`none` models `_get_distance_value` raising), validate the distance delta
bounds, compute the duration, run the sync, and always clear the session.
The completion counter is incremented on entry. -/
def completeSession (cfg : CoordConfig) (endTime : ℚ)
    (endDistanceReading : Option ℚ) (outcome : RemoteOutcome)
    (st0 : CoordState) : CoordState :=
  let st := { st0 with completionAttempts := st0.completionAttempts + 1 }
  let startPair : ℚ × ℚ :=
    match st.currentSession with
    | none => (endTime, 0)
    | some s => (s.startTime, s.startDistance)
  match endDistanceReading with
  | none =>
    let st1 := notify cfg st false
    { st1 with currentSession := none }
  | some endDistance =>
    let workoutDistance := endDistance - startPair.2
    if workoutDistance < MIN_DISTANCE then
      let st1 := notify cfg st false
      { st1 with currentSession := none }
    else if MAX_DISTANCE < workoutDistance then
      let st1 := notify cfg st false
      { st1 with currentSession := none }
    else
      let dm := durationMinutes startPair.1 endTime
      let r := syncWorkout cfg workoutDistance startPair.1 dm outcome st
      let st1 := if r.2 then r.1 else notify cfg r.1 false
      { st1 with currentSession := none }

/-- `_async_start_session`: open a session at the current distance reading;
if the read raises, fall back to `start_distance = 0.0`. -/
def startSession (startTime : ℚ) (distanceReading : Option ℚ)
    (st : CoordState) : CoordState :=
  match distanceReading with
  | some dist => { st with currentSession := some ⟨startTime, dist⟩ }
  | none => { st with currentSession := some ⟨startTime, 0⟩ }

/-- `_async_status_changed`: start a session on a transition into `Working`
from any other status; run the completion pipeline on `Working →
Post-Workout` when auto-sync is enabled; otherwise do nothing. -/
def statusChanged (cfg : CoordConfig) (oldState newState : Option String)
    (lastChanged : ℚ) (distanceReading : Option ℚ) (outcome : RemoteOutcome)
    (st : CoordState) : CoordState :=
  match oldState, newState with
  | some old, some new =>
    if old ≠ STATE_WORKING ∧ new = STATE_WORKING then
      startSession lastChanged distanceReading st
    else if old = STATE_WORKING ∧ new = STATE_POST_WORKOUT then
      if cfg.autoSync then
        completeSession cfg lastChanged distanceReading outcome st
      else st
    else st
  | _, _ => st

/-- `manual_sync`: use the override distance if given, else the sensor
reading (`none` models the read raising); estimate the duration as
`max(1, int(distance * 20))`; run the same sync as the automatic path; on
failure notify and re-raise. -/
def manualSync (cfg : CoordConfig) (distanceOverride sensorDistance : Option ℚ)
    (now : ℚ) (outcome : RemoteOutcome) (st : CoordState) :
    CoordState × Bool :=
  let dOpt : Option ℚ :=
    match distanceOverride with
    | some d => some d
    | none => sensorDistance
  match dOpt with
  | none => (notify cfg st false, false)
  | some d =>
    let dm := max 1 (ratTrunc (d * 20))
    let r := syncWorkout cfg d now dm outcome st
    if r.2 then (r.1, true) else (notify cfg r.1 false, false)

/-! ### Concurrency model for the token refresh path

`_ensure_token_valid` checks the expiry and, when stale, awaits
`_refresh_token`, whose executor job is the single suspension point of the
coroutine.  Two concurrent callers are modelled as two tasks stepped by an
explicit cooperative scheduler; a task at `ready` atomically performs the
expiry check and (when stale) starts the remote refresh call; a task at
`refreshing` completes its in-flight call, updating `expires_at`.  There is
no lock in the source, so nothing prevents the second task from passing the
expiry check while the first refresh is still in flight. -/

inductive RaceTask
  | ready
  | refreshing
  | done
deriving DecidableEq

/-- Shared state of the refresh race: the stored expiry, the number of
refresh calls currently in flight, and the high-water mark of that number. -/
structure RefreshRace where
  expiresAt : ℚ
  inflight : ℕ
  maxInflight : ℕ
deriving DecidableEq

/-- One scheduler step of a single task running `_ensure_token_valid`. -/
def ensureStep (now newExpiry : ℚ) :
    RaceTask × RefreshRace → RaceTask × RefreshRace
  | (.ready, s) =>
    if s.expiresAt - TOKEN_REFRESH_BUFFER ≤ now then
      (.refreshing,
        { s with inflight := s.inflight + 1,
                 maxInflight := max s.maxInflight (s.inflight + 1) })
    else (.done, s)
  | (.refreshing, s) =>
    (.done, { s with inflight := s.inflight - 1, expiresAt := now + newExpiry })
  | (.done, s) => (.done, s)

/-- Run a schedule over two tasks (`true` steps the first task). -/
def runRefreshRace (now newExpiry : ℚ) :
    List Bool → RaceTask × RaceTask × RefreshRace →
    RaceTask × RaceTask × RefreshRace
  | [], st => st
  | c :: cs, (pa, pb, s) =>
    if c then
      let r := ensureStep now newExpiry (pa, s)
      runRefreshRace now newExpiry cs (r.1, pb, r.2)
    else
      let r := ensureStep now newExpiry (pb, s)
      runRefreshRace now newExpiry cs (pa, r.1, r.2)

/-! ### Fixed example states used by concrete evaluations -/

/-- Default configuration (`entry.data` absent keys take the source's
defaults: activity `Walking`, stride `2.5`, auto-sync and notifications on). -/
def cfgD : CoordConfig := {}

/-- Fresh coordinator state with no open session. -/
def st0 : CoordState :=
  { currentSession := none, syncHistory := [], notifications := [],
    createActivityCalls := 0, completionAttempts := 0 }

/-- Coordinator state with an open session started at time 0, distance 0. -/
def stS : CoordState :=
  { currentSession := some ⟨0, 0⟩, syncHistory := [], notifications := [],
    createActivityCalls := 0, completionAttempts := 0 }

/-- API state holding a valid token and a full rate window (150 requests at
time 0). -/
def stFull : ApiState :=
  { accessToken := "tok", refreshToken := "ref", expiresAt := 10000,
    requestTimes := List.replicate 150 0 }

/-- API state holding a stale token. -/
def stTok : ApiState :=
  { accessToken := "oldA", refreshToken := "oldR", expiresAt := 0,
    requestTimes := [] }

/-- Clock readings exercising a backwards clock step: 150 requests at time 0,
one at time 3600 (whose purge drops the 150 zeros), then a reading of 3599,
which is accepted because the zeros are gone from the stored window. -/
def backwardsClockTimes : List ℚ := List.replicate 150 0 ++ [3600, 3599]

/-! ### Basic lemmas -/

lemma ratTrunc_eq_floor {q : ℚ} (h : 0 ≤ q) : ratTrunc q = ⌊q⌋ := if_pos h

lemma notify_syncHistory (cfg : CoordConfig) (st : CoordState) (b : Bool) :
    (notify cfg st b).syncHistory = st.syncHistory := by
  unfold notify; split <;> rfl

lemma notify_createActivityCalls (cfg : CoordConfig) (st : CoordState)
    (b : Bool) : (notify cfg st b).createActivityCalls = st.createActivityCalls := by
  unfold notify; split <;> rfl

lemma notify_completionAttempts (cfg : CoordConfig) (st : CoordState)
    (b : Bool) : (notify cfg st b).completionAttempts = st.completionAttempts := by
  unfold notify; split <;> rfl

lemma notify_notifications_enabled {cfg : CoordConfig} (st : CoordState)
    (b : Bool) (h : cfg.notificationEnabled = true) :
    (notify cfg st b).notifications = st.notifications ++ [b] := by
  unfold notify; rw [if_pos h]

/-- Shape of `_async_sync_workout` when the remote call succeeds. -/
lemma syncWorkout_success (cfg : CoordConfig) (d t : ℚ) (dm : ℤ)
    (st : CoordState) :
    syncWorkout cfg d t dm .success st =
      (notify cfg
        { st with createActivityCalls := st.createActivityCalls + 1,
                  syncHistory := pushHistory st.syncHistory
                    { distance := d,
                      steps := ratTrunc (d * FEET_PER_MILE / cfg.strideLength),
                      durationMinutes := dm,
                      conversionMethod := "manual_calculation",
                      activityType := cfg.activityType, success := true } }
        true, true) := rfl

/-- Shape of the completion pipeline on an open session, in-bounds distance
delta, and a successful remote call. -/
lemma completeSession_success_open (cfg : CoordConfig) (st : CoordState)
    (t0 t1 sd d : ℚ) (hsession : st.currentSession = some ⟨t0, sd⟩)
    (hmin : MIN_DISTANCE ≤ d) (hmax : d ≤ MAX_DISTANCE) :
    completeSession cfg t1 (some (sd + d)) .success st =
      { notify cfg
          { st with completionAttempts := st.completionAttempts + 1,
                    createActivityCalls := st.createActivityCalls + 1,
                    syncHistory := pushHistory st.syncHistory
                      { distance := sd + d - sd,
                        steps := ratTrunc ((sd + d - sd) * FEET_PER_MILE / cfg.strideLength),
                        durationMinutes := durationMinutes t0 t1,
                        conversionMethod := "manual_calculation",
                        activityType := cfg.activityType, success := true } }
          true
        with currentSession := none } := by
  have hd0 : ¬ (sd + d - sd < MIN_DISTANCE) := by
    rw [add_sub_cancel_left]; exact not_lt.mpr hmin
  have hd1 : ¬ (MAX_DISTANCE < sd + d - sd) := by
    rw [add_sub_cancel_left]; exact not_lt.mpr hmax
  simp only [completeSession, hsession, hd0, hd1, if_false,
    syncWorkout_success, if_true, ite_false, ite_true]

/-- Shape of the completion pipeline when no session is open: the code falls
back to `start_time = end_time`, `start_distance = 0`. -/
lemma completeSession_success_none (cfg : CoordConfig) (st : CoordState)
    (t1 e : ℚ) (hsession : st.currentSession = none)
    (hmin : MIN_DISTANCE ≤ e) (hmax : e ≤ MAX_DISTANCE) :
    completeSession cfg t1 (some e) .success st =
      { notify cfg
          { st with completionAttempts := st.completionAttempts + 1,
                    createActivityCalls := st.createActivityCalls + 1,
                    syncHistory := pushHistory st.syncHistory
                      { distance := e - 0,
                        steps := ratTrunc ((e - 0) * FEET_PER_MILE / cfg.strideLength),
                        durationMinutes := durationMinutes t1 t1,
                        conversionMethod := "manual_calculation",
                        activityType := cfg.activityType, success := true } }
          true
        with currentSession := none } := by
  have hd0 : ¬ (e - 0 < MIN_DISTANCE) := by
    rw [sub_zero]; exact not_lt.mpr hmin
  have hd1 : ¬ (MAX_DISTANCE < e - 0) := by
    rw [sub_zero]; exact not_lt.mpr hmax
  simp only [completeSession, hsession, hd0, hd1, if_false,
    syncWorkout_success, if_true, ite_false, ite_true]

/-- Shape of the completion pipeline when the distance delta is out of
bounds: no sync, one failure notification, session cleared. -/
lemma completeSession_invalid (cfg : CoordConfig) (st : CoordState)
    (t0 t1 sd d : ℚ) (oc : RemoteOutcome)
    (hsession : st.currentSession = some ⟨t0, sd⟩)
    (hbad : d < MIN_DISTANCE ∨ MAX_DISTANCE < d) :
    completeSession cfg t1 (some (sd + d)) oc st =
      { notify cfg { st with completionAttempts := st.completionAttempts + 1 }
          false
        with currentSession := none } := by
  rcases hbad with hb | hb
  · have hd0 : sd + d - sd < MIN_DISTANCE := by rw [add_sub_cancel_left]; exact hb
    simp only [completeSession, hsession, hd0, if_true, ite_true]
  · have hd0 : ¬ (sd + d - sd < MIN_DISTANCE) := by
      rw [add_sub_cancel_left]
      have : MIN_DISTANCE < MAX_DISTANCE := by norm_num [MIN_DISTANCE, MAX_DISTANCE]
      exact not_lt.mpr (le_of_lt (lt_trans this hb))
    have hd1 : MAX_DISTANCE < sd + d - sd := by rw [add_sub_cancel_left]; exact hb
    simp only [completeSession, hsession, hd0, hd1, if_false, if_true,
      ite_false, ite_true]

/-- Shape of `manual_sync` with an explicit override distance and a
successful remote call. -/
lemma manualSync_override_success (cfg : CoordConfig) (d now : ℚ)
    (sensor : Option ℚ) (st : CoordState) :
    manualSync cfg (some d) sensor now .success st =
      (notify cfg
        { st with createActivityCalls := st.createActivityCalls + 1,
                  syncHistory := pushHistory st.syncHistory
                    { distance := d,
                      steps := ratTrunc (d * FEET_PER_MILE / cfg.strideLength),
                      durationMinutes := max 1 (ratTrunc (d * 20)),
                      conversionMethod := "manual_calculation",
                      activityType := cfg.activityType, success := true } }
        true, true) := by
  simp only [manualSync, syncWorkout_success, if_true, ite_true]

/-! ### Claim C1 -/

/-- C1: for every distance delta `d` with `MIN_DISTANCE ≤ d ≤ MAX_DISTANCE`
and configured stride length `s > 0`, a completion-pipeline run whose remote
create-activity call succeeds appends exactly one entry to the sync history,
with `success = true` and `steps = ⌊d * 5280 / s⌋`. -/
theorem C1_success_appends_floor_steps
    (cfg : CoordConfig) (st : CoordState) (t0 t1 sd d : ℚ)
    (hsession : st.currentSession = some ⟨t0, sd⟩)
    (hmin : MIN_DISTANCE ≤ d) (hmax : d ≤ MAX_DISTANCE)
    (hstride : 0 < cfg.strideLength) :
    (completeSession cfg t1 (some (sd + d)) .success st).syncHistory =
      pushHistory st.syncHistory
        { distance := d,
          steps := ⌊d * FEET_PER_MILE / cfg.strideLength⌋,
          durationMinutes := durationMinutes t0 t1,
          conversionMethod := "manual_calculation",
          activityType := cfg.activityType,
          success := true } := by
  rw [completeSession_success_open cfg st t0 t1 sd d hsession hmin hmax]
  have hq : (0:ℚ) ≤ d * FEET_PER_MILE / cfg.strideLength := by
    have hd : (0:ℚ) < d := lt_of_lt_of_le (by norm_num [MIN_DISTANCE]) hmin
    have hf : (0:ℚ) < FEET_PER_MILE := by norm_num [FEET_PER_MILE]
    positivity
  simp only [notify_syncHistory, add_sub_cancel_left, ratTrunc_eq_floor hq]

/-- Witness for C1 at stride 2.5 ft, delta 2.0 miles, 2-minute session. -/
theorem C1_success_appends_floor_steps_witness :
    stS.currentSession = some ⟨0, 0⟩
    ∧ MIN_DISTANCE ≤ (2:ℚ) ∧ (2:ℚ) ≤ MAX_DISTANCE
    ∧ (0:ℚ) < cfgD.strideLength
    ∧ (completeSession cfgD 120 (some (0 + 2)) .success stS).syncHistory =
        pushHistory stS.syncHistory
          { distance := 2,
            steps := ⌊(2:ℚ) * FEET_PER_MILE / cfgD.strideLength⌋,
            durationMinutes := durationMinutes 0 120,
            conversionMethod := "manual_calculation",
            activityType := cfgD.activityType,
            success := true } :=
  ⟨rfl, by norm_num [MIN_DISTANCE], by norm_num [MAX_DISTANCE],
   by norm_num [cfgD], C1_success_appends_floor_steps cfgD stS 0 120 0 2 rfl
     (by norm_num [MIN_DISTANCE]) (by norm_num [MAX_DISTANCE])
     (by norm_num [cfgD])⟩

/-! ### Claim C2 -/

/-- C2 counterexample: completion run with delta 0.005 mi (below
`MIN_DISTANCE`): no remote call is made, but the sync history stays empty —
no `success=false` history entry is recorded, contradicting the claim that
exactly one is. -/
theorem C2_counterexample :
    (completeSession cfgD 60 (some (1/200)) .success stS).syncHistory.length = 0
    ∧ (completeSession cfgD 60 (some (1/200)) .success stS).createActivityCalls = 0
    ∧ (completeSession cfgD 60 (some (1/200)) .success stS).notifications = [false] := by
  refine ⟨?_, ?_, ?_⟩ <;> with_unfolding_all decide

/-- C2 (amended): an out-of-bounds distance delta makes no remote call,
records NO sync-history entry (the history is unchanged), and — when
notifications are enabled — issues exactly one failure notification; the
session is cleared. -/
theorem C2_out_of_bounds_no_call_no_history
    (cfg : CoordConfig) (st : CoordState) (t0 t1 sd d : ℚ) (oc : RemoteOutcome)
    (hsession : st.currentSession = some ⟨t0, sd⟩)
    (hnotif : cfg.notificationEnabled = true)
    (hbad : d < MIN_DISTANCE ∨ MAX_DISTANCE < d) :
    (completeSession cfg t1 (some (sd + d)) oc st).createActivityCalls
        = st.createActivityCalls
    ∧ (completeSession cfg t1 (some (sd + d)) oc st).syncHistory = st.syncHistory
    ∧ (completeSession cfg t1 (some (sd + d)) oc st).notifications
        = st.notifications ++ [false]
    ∧ (completeSession cfg t1 (some (sd + d)) oc st).currentSession = none := by
  rw [completeSession_invalid cfg st t0 t1 sd d oc hsession hbad]
  refine ⟨?_, ?_, ?_, rfl⟩
  · simp [notify_createActivityCalls]
  · simp [notify_syncHistory]
  · simp [notify_notifications_enabled _ _ hnotif]

/-- Witness for the amended C2 at delta 0.005 mi. -/
theorem C2_out_of_bounds_no_call_no_history_witness :
    stS.currentSession = some ⟨0, 0⟩
    ∧ cfgD.notificationEnabled = true
    ∧ ((1/200 : ℚ) < MIN_DISTANCE ∨ MAX_DISTANCE < (1/200 : ℚ))
    ∧ ((completeSession cfgD 60 (some (0 + 1/200)) .success stS).createActivityCalls
          = stS.createActivityCalls
        ∧ (completeSession cfgD 60 (some (0 + 1/200)) .success stS).syncHistory
          = stS.syncHistory
        ∧ (completeSession cfgD 60 (some (0 + 1/200)) .success stS).notifications
          = stS.notifications ++ [false]
        ∧ (completeSession cfgD 60 (some (0 + 1/200)) .success stS).currentSession
          = none) :=
  ⟨rfl, rfl, Or.inl (by norm_num [MIN_DISTANCE]),
   C2_out_of_bounds_no_call_no_history cfgD stS 0 60 0 (1/200) .success rfl rfl
     (Or.inl (by norm_num [MIN_DISTANCE]))⟩

/-! ### Claim C3 -/

/-- C3 counterexample: a `Standby → Post-Workout` transition with no open
session is a complete no-op — no completion attempt is made — although the
claim says a Post-Workout transition regardless of the preceding status
yields one attempt. -/
theorem C3_counterexample :
    statusChanged cfgD (some STATE_STANDBY) (some STATE_POST_WORKOUT) 0
        (some 5) .success st0 = st0
    ∧ st0.currentSession = none
    ∧ st0.completionAttempts = 0 := by
  refine ⟨?_, rfl, rfl⟩
  with_unfolding_all decide

/-- C3 (amended): only a `Working → Post-Workout` transition (with auto-sync
enabled) while no session is open triggers exactly one completion attempt,
which uses `start_distance = 0` (so the recorded distance is the full current
reading) and `start_time = end_time`; a Post-Workout transition from any
non-Working status triggers no attempt. -/
theorem C3_post_workout_needs_working_predecessor
    (cfg : CoordConfig) (st : CoordState) (t1 e : ℚ)
    (hsession : st.currentSession = none) (hauto : cfg.autoSync = true)
    (hmin : MIN_DISTANCE ≤ e) (hmax : e ≤ MAX_DISTANCE) :
    ((statusChanged cfg (some STATE_WORKING) (some STATE_POST_WORKOUT) t1
        (some e) .success st).completionAttempts = st.completionAttempts + 1)
    ∧ ((statusChanged cfg (some STATE_WORKING) (some STATE_POST_WORKOUT) t1
        (some e) .success st).syncHistory =
        pushHistory st.syncHistory
          { distance := e - 0,
            steps := ratTrunc ((e - 0) * FEET_PER_MILE / cfg.strideLength),
            durationMinutes := durationMinutes t1 t1,
            conversionMethod := "manual_calculation",
            activityType := cfg.activityType, success := true })
    ∧ (∀ old, old ≠ STATE_WORKING →
        statusChanged cfg (some old) (some STATE_POST_WORKOUT) t1 (some e)
          .success st = st) := by
  have hstep : statusChanged cfg (some STATE_WORKING) (some STATE_POST_WORKOUT)
      t1 (some e) .success st = completeSession cfg t1 (some e) .success st := by
    simp [statusChanged, hauto, STATE_WORKING, STATE_POST_WORKOUT]
  refine ⟨?_, ?_, ?_⟩
  · rw [hstep, completeSession_success_none cfg st t1 e hsession hmin hmax]
    simp [notify_completionAttempts]
  · rw [hstep, completeSession_success_none cfg st t1 e hsession hmin hmax]
    simp [notify_syncHistory]
  · intro old hold
    have h1 : ¬ (old ≠ STATE_WORKING ∧ STATE_POST_WORKOUT = STATE_WORKING) := by
      intro h
      exact absurd h.2 (by simp [STATE_POST_WORKOUT, STATE_WORKING])
    have h2 : ¬ (old = STATE_WORKING ∧ STATE_POST_WORKOUT = STATE_POST_WORKOUT) := by
      intro h
      exact hold h.1
    simp only [statusChanged, h1, h2, if_false, ite_false, ite_eq_right_iff]
    intro h
    exact absurd h.1 hold

/-- Witness for the amended C3: fresh state, reading 1 mile. -/
theorem C3_post_workout_needs_working_predecessor_witness :
    st0.currentSession = none ∧ cfgD.autoSync = true
    ∧ MIN_DISTANCE ≤ (1:ℚ) ∧ (1:ℚ) ≤ MAX_DISTANCE
    ∧ (((statusChanged cfgD (some STATE_WORKING) (some STATE_POST_WORKOUT) 0
          (some 1) .success st0).completionAttempts = st0.completionAttempts + 1)
        ∧ ((statusChanged cfgD (some STATE_WORKING) (some STATE_POST_WORKOUT) 0
            (some 1) .success st0).syncHistory =
            pushHistory st0.syncHistory
              { distance := 1 - 0,
                steps := ratTrunc ((1 - 0) * FEET_PER_MILE / cfgD.strideLength),
                durationMinutes := durationMinutes 0 0,
                conversionMethod := "manual_calculation",
                activityType := cfgD.activityType, success := true })
        ∧ (∀ old, old ≠ STATE_WORKING →
            statusChanged cfgD (some old) (some STATE_POST_WORKOUT) 0 (some 1)
              .success st0 = st0)) :=
  ⟨rfl, rfl, by norm_num [MIN_DISTANCE], by norm_num [MAX_DISTANCE],
   C3_post_workout_needs_working_predecessor cfgD st0 0 1 rfl rfl
     (by norm_num [MIN_DISTANCE]) (by norm_num [MAX_DISTANCE])⟩

/-! ### Claim C5 -/

/-- C5 counterexample: an elapsed time of 100 seconds gives
`duration_minutes = max(1, int(100/60)) = 1` in the code, while the claim's
`max(1, round(100/60 minutes))` is `2`. -/
theorem C5_counterexample :
    durationMinutes 0 100 = 1 ∧ max 1 (round ((100 - 0 : ℚ) / 60)) = 2 := by
  constructor
  · have h : ((100:ℚ) - 0) / 60 = 5/3 := by norm_num
    have hq : (0:ℚ) ≤ 5/3 := by norm_num
    rw [durationMinutes, h, ratTrunc_eq_floor hq]
    norm_num
  · norm_num [round_eq]

/-- C5 (amended): the completion pipeline computes
`duration_minutes = max(1, ⌊(t1 - t0) in minutes⌋)` — the elapsed minutes are
truncated, not rounded to nearest. -/
theorem C5_duration_truncates (t0 t1 : ℚ) (h : t0 ≤ t1) :
    durationMinutes t0 t1 = max 1 ⌊(t1 - t0) / 60⌋ := by
  have hq : (0:ℚ) ≤ (t1 - t0) / 60 :=
    div_nonneg (sub_nonneg.mpr h) (by norm_num)
  rw [durationMinutes, ratTrunc_eq_floor hq]

/-- Witness for the amended C5 at a 90-second session. -/
theorem C5_duration_truncates_witness :
    (0:ℚ) ≤ 90 ∧ durationMinutes 0 90 = max 1 ⌊((90:ℚ) - 0) / 60⌋ :=
  ⟨by norm_num, C5_duration_truncates 0 90 (by norm_num)⟩

/-! ### Claim C8 -/

/-- C8 counterexample: open a session via `Standby → Working` (session
`⟨0, 1⟩`), stay open through `Working → Standby`, then a second
`Standby → Working` — an incoming status other than Post-Workout — silently
replaces the open session with `⟨50, 2⟩`. -/
theorem C8_counterexample :
    (statusChanged cfgD (some STATE_STANDBY) (some STATE_WORKING) 0 (some 1)
        .success st0).currentSession = some ⟨0, 1⟩
    ∧ (statusChanged cfgD (some STATE_WORKING) (some STATE_STANDBY) 10 (some 3)
        .success
        (statusChanged cfgD (some STATE_STANDBY) (some STATE_WORKING) 0 (some 1)
          .success st0)).currentSession = some ⟨0, 1⟩
    ∧ (statusChanged cfgD (some STATE_STANDBY) (some STATE_WORKING) 50 (some 2)
        .success
        (statusChanged cfgD (some STATE_WORKING) (some STATE_STANDBY) 10 (some 3)
          .success
          (statusChanged cfgD (some STATE_STANDBY) (some STATE_WORKING) 0 (some 1)
            .success st0))).currentSession = some ⟨50, 2⟩
    ∧ (⟨50, 2⟩ : Session) ≠ ⟨0, 1⟩ := by
  refine ⟨?_, ?_, ?_, ?_⟩ <;> with_unfolding_all decide

/-- C8 (amended): while a session is open, an incoming status is a no-op
unless it is Post-Workout arriving from Working (completion) or it is
Working arriving from a non-Working status — the latter opens a NEW session,
silently replacing the open one.  The no-op conjunct covers every
transition outside those two exceptional shapes, including
Working → Working (spelled out as the second conjunct). -/
theorem C8_in_session_noop_except_working_reentry
    (cfg : CoordConfig) (old new : String) (t : ℚ) (reading : Option ℚ)
    (oc : RemoteOutcome) (st : CoordState) (s : Session)
    (_hopen : st.currentSession = some s)
    (hstart : ¬(old ≠ STATE_WORKING ∧ new = STATE_WORKING))
    (hdone : ¬(old = STATE_WORKING ∧ new = STATE_POST_WORKOUT)) :
    statusChanged cfg (some old) (some new) t reading oc st = st
    ∧ statusChanged cfg (some STATE_WORKING) (some STATE_WORKING) t reading oc
        st = st
    ∧ (∀ old2 r2, old2 ≠ STATE_WORKING →
        (statusChanged cfg (some old2) (some STATE_WORKING) t (some r2) oc
          st).currentSession = some ⟨t, r2⟩) := by
  refine ⟨?_, ?_, ?_⟩
  · simp only [statusChanged, hstart, hdone, if_false, ite_false]
  · simp [statusChanged, STATE_WORKING, STATE_POST_WORKOUT]
  · intro old2 r2 hold2
    simp [statusChanged, startSession, hold2]

/-- Witness for the amended C8: open session, incoming `Standby` from
`Standby`. -/
theorem C8_in_session_noop_except_working_reentry_witness :
    stS.currentSession = some ⟨0, 0⟩
    ∧ ¬(STATE_STANDBY ≠ STATE_WORKING ∧ STATE_STANDBY = STATE_WORKING)
    ∧ ¬(STATE_STANDBY = STATE_WORKING ∧ STATE_STANDBY = STATE_POST_WORKOUT)
    ∧ (statusChanged cfgD (some STATE_STANDBY) (some STATE_STANDBY) 25 (some 4)
          .success stS = stS
        ∧ statusChanged cfgD (some STATE_WORKING) (some STATE_WORKING) 25
            (some 4) .success stS = stS
        ∧ (∀ old2 r2, old2 ≠ STATE_WORKING →
            (statusChanged cfgD (some old2) (some STATE_WORKING) 25 (some r2)
              .success stS).currentSession = some ⟨25, r2⟩)) :=
  ⟨rfl, by simp [STATE_STANDBY, STATE_WORKING],
   by simp [STATE_STANDBY, STATE_WORKING],
   C8_in_session_noop_except_working_reentry cfgD STATE_STANDBY STATE_STANDBY
     25 (some 4) .success stS ⟨0, 0⟩ rfl
     (by simp [STATE_STANDBY, STATE_WORKING])
     (by simp [STATE_STANDBY, STATE_WORKING])⟩

/-! ### Claim C10 -/

/-- C10: `manual_sync` applies no distance-bounds validation — for EVERY
override distance `d` (negative, zero, or above `MAX_DISTANCE`) it invokes
the remote create-activity call with distance `d` and records
`steps = int(d * 5280 / stride)` (truncation toward zero); in particular the
override `-1` mile at the default stride 2.5 ft yields the negative step
count `-2112`, violating the non-negative steps constraint. -/
theorem C10_manual_sync_unvalidated
    (cfg : CoordConfig) (st : CoordState) (d now : ℚ) :
    ((manualSync cfg (some d) none now .success st).1.createActivityCalls
        = st.createActivityCalls + 1)
    ∧ ((manualSync cfg (some d) none now .success st).1.syncHistory =
        pushHistory st.syncHistory
          { distance := d,
            steps := ratTrunc (d * FEET_PER_MILE / cfg.strideLength),
            durationMinutes := max 1 (ratTrunc (d * 20)),
            conversionMethod := "manual_calculation",
            activityType := cfg.activityType, success := true })
    ∧ ratTrunc ((-1 : ℚ) * FEET_PER_MILE / (5/2)) = -2112
    ∧ ratTrunc ((-1 : ℚ) * FEET_PER_MILE / (5/2)) < 0 := by
  have hval : ((-1 : ℚ) * FEET_PER_MILE / (5/2)) = -2112 := by
    norm_num [FEET_PER_MILE]
  have htr : ratTrunc ((-1 : ℚ) * FEET_PER_MILE / (5/2)) = -2112 := by
    rw [hval, ratTrunc, if_neg (by norm_num),
      show ((-2112 : ℚ)) = ((-2112 : ℤ) : ℚ) by norm_num, Int.ceil_intCast]
  refine ⟨?_, ?_, htr, by rw [htr]; norm_num⟩
  · rw [manualSync_override_success]
    simp [notify_createActivityCalls]
  · rw [manualSync_override_success]
    simp [notify_syncHistory]

/-! ### Claim C7 -/

/-- C7 counterexample: a refresh whose remote call returns a dictionary with
`access_token` but no `refresh_token` raises the auth error AFTER the access
token has been overwritten — the stored fields are not left unchanged. -/
theorem C7_counterexample :
    refreshTokenStep 0 (some ⟨some "newA", none, none⟩) stTok =
      .error { stTok with accessToken := "newA" }
    ∧ ({ stTok with accessToken := "newA" } : ApiState).accessToken
        ≠ stTok.accessToken := by
  refine ⟨rfl, ?_⟩
  with_unfolding_all decide

/-- C7 (amended): when the remote refresh call itself raises, or the
response lacks `access_token`, the failure leaves all three token fields
unchanged; when the response contains a prefix of the expected fields, the
fields read before the first missing key keep their NEW values while the
rest stay stale; only a complete response replaces all three fields (and
then atomically). -/
theorem C7_refresh_failure_may_partially_update (now : ℚ) (st : ApiState) :
    refreshTokenStep now none st = .error st
    ∧ (∀ r e, refreshTokenStep now (some ⟨none, r, e⟩) st = .error st)
    ∧ (∀ a, refreshTokenStep now (some ⟨some a, none, none⟩) st =
        .error { st with accessToken := a })
    ∧ (∀ a e, refreshTokenStep now (some ⟨some a, none, some e⟩) st =
        .error { st with accessToken := a })
    ∧ (∀ a rt, refreshTokenStep now (some ⟨some a, some rt, none⟩) st =
        .error { st with accessToken := a, refreshToken := rt })
    ∧ (∀ a rt e, refreshTokenStep now (some ⟨some a, some rt, some e⟩) st =
        .ok { st with accessToken := a, refreshToken := rt,
                      expiresAt := now + e }) :=
  ⟨rfl, fun _ _ => rfl, fun _ => rfl, fun _ _ => rfl, fun _ _ => rfl,
   fun _ _ _ => rfl⟩

/-! ### Claim C6 -/

/-- The rate window is untouched by a token refresh. -/
lemma refreshTokenStep_requestTimes (now : ℚ) (resp : Option TokenResp)
    (st : ApiState) :
    (match refreshTokenStep now resp st with
     | .ok s => s.requestTimes
     | .error s => s.requestTimes) = st.requestTimes := by
  rcases resp with _ | ⟨_ | a, _ | rt, _ | e⟩ <;> rfl

/-- The rate window is untouched by `_ensure_token_valid`. -/
lemma ensureTokenValid_requestTimes (now : ℚ) (resp : Option TokenResp)
    (st : ApiState) :
    (match ensureTokenValid now resp st with
     | .ok s => s.requestTimes
     | .error s => s.requestTimes) = st.requestTimes := by
  by_cases h : st.expiresAt - TOKEN_REFRESH_BUFFER ≤ now
  · simpa [ensureTokenValid, h] using refreshTokenStep_requestTimes now resp st
  · simp [ensureTokenValid, h]

set_option maxRecDepth 4000 in
/-- C6 counterexample: with a full rate window (150 requests in the last
hour) and a valid token, `create_activity_log` raises the rate-limit error
and issues no request, while `get_user_profile` at the same state issues its
request — the two calls do NOT share the same quota handling. -/
theorem C6_counterexample :
    createActivityLog 0 none stFull = .error (.rateLimited, stFull)
    ∧ getUserProfile 0 none stFull = .ok (stFull, true) := by
  constructor <;> with_unfolding_all rfl

/-- C6 (amended): `get_user_profile` performs the same token-validity check
as `create_activity_log` but NO rate-limit admission check: it never raises
the rate-limit error, never records a timestamp, and leaves the rate window
exactly as it found it. -/
theorem C6_get_profile_skips_rate_limit (now : ℚ) (resp : Option TokenResp)
    (st : ApiState) :
    getUserProfile now resp st =
      (match ensureTokenValid now resp st with
       | .ok s1 => .ok (s1, true)
       | .error s1 => .error (.authFailed, s1))
    ∧ (match getUserProfile now resp st with
       | .ok r => r.1.requestTimes
       | .error f => f.2.requestTimes) = st.requestTimes
    ∧ (∀ s, getUserProfile now resp st ≠ .error (.rateLimited, s)) := by
  refine ⟨?_, ?_, ?_⟩
  · cases he : ensureTokenValid now resp st <;> simp [getUserProfile, he]
  · have h := ensureTokenValid_requestTimes now resp st
    unfold getUserProfile
    cases he : ensureTokenValid now resp st with
    | ok s => rw [he] at h; simpa using h
    | error s => rw [he] at h; simpa using h
  · intro s
    unfold getUserProfile
    cases he : ensureTokenValid now resp st with
    | ok s1 => simp
    | error s1 => simp

/-! ### Claim C9 -/

/-- C9: the failing interleaving — both callers find the token stale at time
1000 (`expires_at = 1000`); the scheduler runs caller A's expiry check and
refresh start, then caller B's expiry check and refresh start before A's
refresh completes: two refresh calls are simultaneously in flight
(`maxInflight = 2`), and the trace is a complete run (both tasks finish,
in-flight count back to 0), so refresh is NOT single-flight — there is no
lock in `_ensure_token_valid`.  By contrast, the sequential schedule in
which caller A runs to completion before B's expiry check reaches
`maxInflight = 1` only: B then sees the refreshed `expires_at` and performs
no refresh, which is exactly the awaited-outcome behaviour the claim
demands and the unlocked code fails to guarantee. -/
theorem C9_concurrent_refresh_duplicated :
    (runRefreshRace 1000 3600 [true, false, true, false]
        (.ready, .ready, ⟨1000, 0, 0⟩)).2.2.maxInflight = 2
    ∧ (runRefreshRace 1000 3600 [true, false, true, false]
        (.ready, .ready, ⟨1000, 0, 0⟩)).1 = .done
    ∧ (runRefreshRace 1000 3600 [true, false, true, false]
        (.ready, .ready, ⟨1000, 0, 0⟩)).2.1 = .done
    ∧ (runRefreshRace 1000 3600 [true, false, true, false]
        (.ready, .ready, ⟨1000, 0, 0⟩)).2.2.inflight = 0
    ∧ (runRefreshRace 1000 3600 [true, true, false, false]
        (.ready, .ready, ⟨1000, 0, 0⟩)).2.2.maxInflight = 1 := by
  refine ⟨?_, ?_, ?_, ?_, ?_⟩ <;> with_unfolding_all decide

/-! ### Claim C4 -/

/-- Filtering with a stronger predicate yields at most as many elements. -/
lemma filter_length_le_of_imp {p q : ℚ → Bool} (l : List ℚ)
    (h : ∀ a, p a = true → q a = true) :
    (l.filter p).length ≤ (l.filter q).length :=
  (List.monotone_filter_right l (fun a ha => h a ha)).length_le

/-- Purging at a later clock reading collapses two window filters into one. -/
lemma purgeWindow_filter (t now : ℚ) (hle : t ≤ now) (adm : List ℚ) :
    purgeWindow now (adm.filter (fun u => decide (t - u < 3600))) =
      adm.filter (fun u => decide (now - u < 3600)) := by
  unfold purgeWindow
  rw [List.filter_filter]
  refine List.filter_congr ?_
  intro u _
  by_cases h : now - u < 3600
  · have h2 : t - u < 3600 := lt_of_le_of_lt (by linarith) h
    simp [h, h2]
  · simp [h]

lemma checkRateLimit_accept (now : ℚ) (w : List ℚ)
    (h : ¬ 150 ≤ (purgeWindow now w).length) :
    checkRateLimit now w = (true, purgeWindow now w ++ [now]) := by
  simp [checkRateLimit, h]

lemma checkRateLimit_reject (now : ℚ) (w : List ℚ)
    (h : 150 ≤ (purgeWindow now w).length) :
    checkRateLimit now w = (false, purgeWindow now w) := by
  simp [checkRateLimit, h]

lemma runRateLimiter_cons (t : ℚ) (ts : List ℚ) (w : List ℚ) :
    runRateLimiter (t :: ts) w =
      ((runRateLimiter ts (checkRateLimit t w).2).1,
       if (checkRateLimit t w).1 then
         t :: (runRateLimiter ts (checkRateLimit t w).2).2
       else (runRateLimiter ts (checkRateLimit t w).2).2) := rfl

/-- Invariant of the sliding-window limiter under a nondecreasing clock:
starting from a window holding exactly the previously accepted timestamps
still inside the hour (`adm.filter`), if every trailing hour-long window of
`adm` holds at most 150 accepted requests, the same is true after running
any further nondecreasing sequence of calls. -/
lemma runRateLimiter_window_count (ts : List ℚ) :
    ∀ (t : ℚ) (adm : List ℚ),
      List.Chain' (· ≤ ·) (t :: ts) →
      (∀ u ∈ adm, u ≤ t) →
      (∀ endT, (adm.filter (inWindow endT)).length ≤ 150) →
      ∀ endT,
        ((adm ++ (runRateLimiter ts
            (adm.filter (fun u => decide (t - u < 3600)))).2).filter
          (inWindow endT)).length ≤ 150 := by
  induction ts with
  | nil =>
    intro t adm _ _ hcount endT
    simpa [runRateLimiter] using hcount endT
  | cons now rest ih =>
    intro t adm hchain hub hcount endT
    have htn : t ≤ now := (List.chain'_cons.mp hchain).1
    have hchain2 : List.Chain' (· ≤ ·) (now :: rest) :=
      (List.chain'_cons.mp hchain).2
    have hpurge : purgeWindow now (adm.filter (fun u => decide (t - u < 3600))) =
        adm.filter (fun u => decide (now - u < 3600)) :=
      purgeWindow_filter t now htn adm
    by_cases h150 :
        150 ≤ (adm.filter (fun u => decide (now - u < 3600))).length
    · have hcrl : checkRateLimit now (adm.filter (fun u => decide (t - u < 3600))) =
          (false, adm.filter (fun u => decide (now - u < 3600))) := by
        rw [checkRateLimit_reject _ _ (by rw [hpurge]; exact h150), hpurge]
      rw [runRateLimiter_cons, hcrl]
      simp only [Bool.false_eq_true, if_false, ite_false]
      exact ih now adm hchain2 (fun u hu => (hub u hu).trans htn) hcount endT
    · have hcrl : checkRateLimit now (adm.filter (fun u => decide (t - u < 3600))) =
          (true, adm.filter (fun u => decide (now - u < 3600)) ++ [now]) := by
        rw [checkRateLimit_accept _ _ (by rw [hpurge]; exact h150), hpurge]
      rw [runRateLimiter_cons, hcrl]
      simp only [if_true, ite_true]
      have hw2 : adm.filter (fun u => decide (now - u < 3600)) ++ [now] =
          (adm ++ [now]).filter (fun u => decide (now - u < 3600)) := by
        rw [List.filter_append]
        congr 1
        simp
      have hub2 : ∀ u ∈ adm ++ [now], u ≤ now := by
        intro u hu
        rcases List.mem_append.mp hu with h | h
        · exact (hub u h).trans htn
        · simp only [List.mem_singleton] at h
          exact le_of_eq h
      have hcount2 : ∀ e2, ((adm ++ [now]).filter (inWindow e2)).length ≤ 150 := by
        intro e2
        rw [List.filter_append]
        by_cases hwin : inWindow e2 now = true
        · have hwin2 : e2 - 3600 < now ∧ now ≤ e2 := by
            simpa [inWindow] using hwin
          have hmono : (adm.filter (inWindow e2)).length ≤
              (adm.filter (fun u => decide (now - u < 3600))).length := by
            refine filter_length_le_of_imp adm ?_
            intro a ha
            have ha2 : e2 - 3600 < a ∧ a ≤ e2 := by simpa [inWindow] using ha
            have : now - a < 3600 := by
              obtain ⟨h1, _⟩ := ha2
              obtain ⟨_, h2⟩ := hwin2
              linarith
            simpa using this
          have h149 : (adm.filter (fun u => decide (now - u < 3600))).length ≤ 149 :=
            by omega
          rw [List.length_append]
          have hsing : (List.filter (inWindow e2) [now]).length ≤ 1 :=
            List.length_filter_le _ _
          omega
        · have hsing : List.filter (inWindow e2) [now] = [] := by
            simp [List.filter, hwin]
          rw [hsing]
          simpa using hcount e2
      have hres := ih now (adm ++ [now]) hchain2 hub2 hcount2 endT
      rw [← hw2] at hres
      simpa [List.append_assoc] using hres

/-- C4 (amended): for every NONDECREASING sequence of clock readings (the
arrival order of real `time.time()` calls), the limiter accepts at most 150
requests inside any trailing 3600-second window; a rejected call records
nothing (the window is only purged); and the stored window never exceeds 150
entries after any call.  (For a clock that jumps backwards the window bound
can be beaten — see the counterexample.) -/
theorem C4_sliding_window_monotone_clock (ts : List ℚ)
    (hsorted : List.Chain' (· ≤ ·) ts) :
    (∀ endT, (((runRateLimiter ts []).2).filter (inWindow endT)).length ≤ 150)
    ∧ (∀ now w, (checkRateLimit now w).1 = false →
        (checkRateLimit now w).2 = purgeWindow now w)
    ∧ (∀ ts2 w, w.length ≤ 150 → ((runRateLimiter ts2 w).1).length ≤ 150) := by
  refine ⟨?_, ?_, ?_⟩
  · cases ts with
    | nil => intro endT; simp [runRateLimiter]
    | cons t rest =>
      intro endT
      have hch : List.Chain' (· ≤ ·) (t :: t :: rest) :=
        List.chain'_cons.mpr ⟨le_refl t, hsorted⟩
      have h := runRateLimiter_window_count (t :: rest) t [] hch
        (by intro u hu; cases hu) (by intro e2; simp) endT
      simpa using h
  · intro now w hfalse
    by_cases h : 150 ≤ (purgeWindow now w).length
    · rw [checkRateLimit_reject now w h]
    · rw [checkRateLimit_accept now w h] at hfalse
      simp at hfalse
  · intro ts2
    induction ts2 with
    | nil => intro w hw; simpa [runRateLimiter] using hw
    | cons t rest ih =>
      intro w hw
      by_cases h : 150 ≤ (purgeWindow t w).length
      · rw [runRateLimiter_cons, checkRateLimit_reject t w h]
        have hp : (purgeWindow t w).length ≤ 150 :=
          le_trans (List.length_filter_le _ _) hw
        exact ih (purgeWindow t w) hp
      · rw [runRateLimiter_cons, checkRateLimit_accept t w h]
        have hp : (purgeWindow t w ++ [t]).length ≤ 150 := by
          rw [List.length_append]
          simp only [List.length_singleton]
          omega
        exact ih _ hp

/-- Witness for the amended C4 on the nondecreasing reading sequence
`[0, 1800, 3600]`. -/
theorem C4_sliding_window_monotone_clock_witness :
    List.Chain' (· ≤ ·) ([0, 1800, 3600] : List ℚ)
    ∧ ((∀ endT, (((runRateLimiter ([0, 1800, 3600] : List ℚ) []).2).filter
          (inWindow endT)).length ≤ 150)
      ∧ (∀ now w, (checkRateLimit now w).1 = false →
          (checkRateLimit now w).2 = purgeWindow now w)
      ∧ (∀ ts2 w, w.length ≤ 150 → ((runRateLimiter ts2 w).1).length ≤ 150)) :=
  ⟨by norm_num [List.chain'_cons],
   C4_sliding_window_monotone_clock [0, 1800, 3600]
     (by norm_num [List.chain'_cons])⟩

set_option maxRecDepth 10000 in
/-- C4 counterexample: with arbitrary (non-monotone) timestamps the claim
fails — after the `backwardsClockTimes` arrival pattern, the trailing
3600-second window ending at 3599 contains 151 accepted requests (the 150
zeros and the request at 3599). -/
theorem C4_counterexample :
    (((runRateLimiter backwardsClockTimes []).2).filter
        (inWindow 3599)).length = 151 := by
  with_unfolding_all decide
